import Mathlib

/-!
Shallow embedding of the traffic-accident ETL pipeline
(`process_and_validate.py`, `cleaning_and_export.py`).

Cells of a table are nulls, strings or numbers; a table is a list of
column names together with a list of rows.  Pandas/Polars column
operations are modelled cell-wise on lists; string operations are
modelled on the underlying character lists so that everything is
executable by kernel reduction.
-/

namespace AccidentPipeline

/-- A cell value: pandas/polars null (NaN), a string, or a number.
The numeric columns of this dataset hold integer codes, so numbers are
modelled as integers. -/
inductive Val where
  | null : Val
  | str (s : String) : Val
  | num (n : Int) : Val
deriving DecidableEq, Repr

/-- `Series.notna` for a cell: everything except null is non-null.
(The empty string is a non-null value in pandas.) -/
def notna : Val → Bool
  | .null => false
  | _ => true

/-- Python `str.lower` on one character, for the ASCII letters and the
accented Latin-1 uppercase letters occurring in this dataset. -/
def pyLowerChar (c : Char) : Char :=
  if 'A' ≤ c ∧ c ≤ 'Z' then Char.ofNat (c.toNat + 32)
  else if c = 'Á' then 'á'
  else if c = 'É' then 'é'
  else if c = 'Í' then 'í'
  else if c = 'Ó' then 'ó'
  else if c = 'Ú' then 'ú'
  else if c = 'Ñ' then 'ñ'
  else if c = 'Ü' then 'ü'
  else c

/-- Python `str.lower` / polars `str.to_lowercase` on a string. -/
def pyLower (s : String) : String := ⟨s.data.map pyLowerChar⟩

/-- `unidecode` transliteration of one character, for the characters
occurring in this dataset's headers and values: ASCII passes through,
accented Latin-1 letters lose their accent, anything else is dropped. -/
def unidecodeChar (c : Char) : List Char :=
  if c.toNat < 128 then [c]
  else if c = 'á' then ['a']
  else if c = 'é' then ['e']
  else if c = 'í' then ['i']
  else if c = 'ó' then ['o']
  else if c = 'ú' then ['u']
  else if c = 'ñ' then ['n']
  else if c = 'ü' then ['u']
  else if c = 'Á' then ['A']
  else if c = 'É' then ['E']
  else if c = 'Í' then ['I']
  else if c = 'Ó' then ['O']
  else if c = 'Ú' then ['U']
  else if c = 'Ñ' then ['N']
  else if c = 'Ü' then ['U']
  else []

/-- `unidecode` transliteration of a string. -/
def unidecodeStr (s : String) : String := ⟨(s.data.map unidecodeChar).flatten⟩

/-- The first substitution rule whose (nonempty) pattern is a prefix of
the remaining input.  Rules are `(pattern, replacement)` pairs tried in
list order. -/
def firstRuleMatch (rules : List (String × String)) (s : List Char) :
    Option (String × String) :=
  rules.find? (fun r => !r.1.data.isEmpty && r.1.data.isPrefixOf s)

/-- Worker for `strReplaceMany`: scan left to right, replacing every
non-overlapping occurrence of any pattern (first matching rule wins) and
continuing after the replaced text.  `fuel` bounds the recursion; since
every step consumes at least one input character, `fuel = s.length`
always suffices. -/
def replaceManyGo (rules : List (String × String)) : Nat → List Char → List Char
  | 0, s => s
  | _ + 1, [] => []
  | fuel + 1, c :: cs =>
    match firstRuleMatch rules (c :: cs) with
    | none => c :: replaceManyGo rules fuel cs
    | some r => r.2.data ++ replaceManyGo rules fuel (List.drop r.1.data.length (c :: cs))

/-- Polars `Expr.str.replace_many(patterns, replacements)`: replace all
non-overlapping occurrences of any pattern, scanning left to right, with
the replacement at the same index of the parallel replacement list.
Also models Python/pandas `str.replace(old, new)` for a literal pattern
(a single rule). -/
def strReplaceMany (pats reps : List String) (s : String) : String :=
  ⟨replaceManyGo (pats.zip reps) s.data.length s.data⟩

/-- Index of the first occurrence of `pat` as a contiguous sublist. -/
def firstOccIdx (pat : List Char) : List Char → Option Nat
  | [] => if pat.isEmpty then some 0 else none
  | c :: cs =>
    if pat.isPrefixOf (c :: cs) then some 0
    else (firstOccIdx pat cs).map (· + 1)

/-- Polars `Expr.str.replace(pat ++ ".*", rep)` (regex, first match
only): the regex matches from the first occurrence of the literal `pat`
to the end of the string, so the result keeps the text before that
occurrence and appends `rep`.  (The strings in this pipeline contain no
newlines, so `.*` reaches the end of the string.) -/
def replaceTail (pat rep : String) (s : String) : String :=
  match firstOccIdx pat.data s.data with
  | none => s
  | some i => ⟨s.data.take i ++ rep.data⟩

/-- Value of a nonempty list of decimal digit characters. -/
def digitsVal (cs : List Char) : Int :=
  cs.foldl (fun a c => a * 10 + ((c.toNat : Int) - 48)) 0

/-- Integer grammar shared by the two casts: optional sign followed by a
nonempty run of decimal digits. -/
def parseSignedDigits (cs : List Char) : Option Int :=
  match cs with
  | '-' :: rest =>
    if rest.isEmpty then none
    else if rest.all Char.isDigit then some (-(digitsVal rest)) else none
  | '+' :: rest =>
    if rest.isEmpty then none
    else if rest.all Char.isDigit then some (digitsVal rest) else none
  | rest =>
    if rest.isEmpty then none
    else if rest.all Char.isDigit then some (digitsVal rest) else none

/-- Polars `cast(pl.Int64, strict=False)` on a string cell: the whole
string must be a signed integer literal, otherwise the cast yields
null. -/
def parseIntCast (s : String) : Option Int := parseSignedDigits s.data

/-- Pandas `pd.to_numeric` parse of one string: surrounding spaces are
stripped, then the value must be a numeric literal.  The audited columns
of this dataset hold integer codes, so the numeric grammar is the signed
integer one. -/
def parseNumStr (s : String) : Option Int :=
  parseSignedDigits (((s.data.dropWhile (· = ' ')).reverse.dropWhile (· = ' ')).reverse)

/-- `pd.to_numeric(cell, errors="coerce")`: nulls stay null, numbers pass
through, strings parse or become null. -/
def toNumericCell : Val → Val
  | .null => .null
  | .num n => .num n
  | .str s =>
    match parseNumStr s with
    | some n => .num n
    | none => .null

/-- Body of the per-column loop of `convert_numeric_columns`
(`cleaning_and_export.py`): the coercion mask is
`pd.to_numeric(df[col], errors="coerce").isna() & df[col].notna()`, its
sum is added to the running total, and the column is replaced by the
coerced values.  Returns the new column and the count contributed to
`total_coerced`. -/
def convert_numeric_column (col : List Val) : List Val × Nat :=
  let coerceMask := col.map (fun v => (!notna (toNumericCell v)) && notna v)
  (col.map toNumericCell, coerceMask.count true)

/-- `months_spanish` of `translate_months`. -/
def months_spanish : List String :=
  ["enero", "febrero", "marzo", "abril", "mayo", "junio", "julio",
   "agosto", "septiembre", "octubre", "noviembre", "diciembre"]

/-- `months_english` of `translate_months`. -/
def months_english : List String :=
  ["January", "February", "March", "April", "May", "June", "July",
   "August", "September", "October", "November", "December"]

/-- `numbers = [str(i) for i in range(1, 13)]` of `translate_months`. -/
def month_numbers : List String := (List.range 12).map (fun i => toString (i + 1))

/-- `translate_months` on one cell of the `mes` column: lowercase,
replace Spanish month names by the English name at the same index,
replace English month names by the numeric string at the same index,
then cast to `Int64` non-strictly.  Polars string expressions propagate
null cells. -/
def translate_mes_cell (c : Option String) : Option Int :=
  c.bind fun s =>
    parseIntCast (strReplaceMany months_english month_numbers
      (strReplaceMany months_spanish months_english (pyLower s)))

/-- `translate_months` applied to the whole `mes` column. -/
def translate_months (col : List (Option String)) : List (Option Int) :=
  col.map translate_mes_cell

/-- The diagnostic of `translate_months`:
`pl_df.filter(pl.col("mes").is_null()).select("mes").unique()` — the
distinct values of the post-cast `mes` column among its null rows. -/
def invalid_months (col : List (Option String)) : List (Option Int) :=
  ((translate_months col).filter (fun v => v.isNone)).dedup

/-- `process_damage_levels` on one cell of the `nivel_dano_vehiculo`
column: the ordered substitution chain
`replace_many(["Bajo","Alto","Medio","Sin "], ["Low","High","Medium","No damage"])`,
`replace("No damage.*", "No damage")`,
`replace_many(["Low","High","Medium","No damage"], ["2","4","3","1"])`,
`replace("1.*", "1")`, then `cast(pl.Int64, strict=False)`. -/
def process_damage_cell (c : Option String) : Option Int :=
  c.bind fun s =>
    parseIntCast (replaceTail "1" "1"
      (strReplaceMany ["Low", "High", "Medium", "No damage"] ["2", "4", "3", "1"]
        (replaceTail "No damage" "No damage"
          (strReplaceMany ["Bajo", "Alto", "Medio", "Sin "]
            ["Low", "High", "Medium", "No damage"] s))))

/-- `process_damage_levels` applied to the whole column. -/
def process_damage_levels (col : List (Option String)) : List (Option Int) :=
  col.map process_damage_cell

/-- A data frame: ordered column names and rows of cells.  A row's cell
for column `cols[i]` sits at position `i`. -/
structure Table where
  cols : List String
  rows : List (List Val)
deriving DecidableEq, Repr

/-- Python `list.index` (`None` instead of `ValueError`): index of the
first occurrence. -/
def pyIndex (x : String) : List String → Option Nat
  | [] => none
  | y :: ys => if y = x then some 0 else (pyIndex x ys).map (· + 1)

/-- The rename dictionary `column_renames` of `clean_column_names`
(`process_and_validate.py`). -/
def column_renames : List (String × String) :=
  [("daa_numero", "dia_numero"),
   ("aao", "ano"),
   ("nivel_daao_vehiculo", "nivel_dano_vehiculo"),
   ("causa_siniestro", "tipo_de_percance"),
   ("punto_de_impacto", "punto_impacto"),
   ("ciudad", "ciudad_municipio"),
   ("lesionados", "total_lesionados"),
   ("relacion_lesionados", "rol_lesionado"),
   ("nivel_lesionados", "nivel_lesion"),
   ("obra_civil", "dano_obra_civil"),
   ("fuga", "tercero_fuga"),
   ("seguro", "aseguradora"),
   ("taxi", "servicio_taxi")]

/-- `df.rename(columns=column_renames)` on one column name. -/
def applyRenames (c : String) : String :=
  match column_renames.lookup c with
  | some v => v
  | none => c

/-- `clean_column_names` (`process_and_validate.py`): per column name,
`unidecode(col.lower().replace(" ", "_"))`, then
`.str.replace("_reporte", "")`, then the explicit rename dictionary.
Only the column names are reassigned; the rows are untouched. -/
def clean_column_names (t : Table) : Table :=
  { cols :=
      ((t.cols.map fun c =>
          unidecodeStr (strReplaceMany [" "] ["_"] (pyLower c))).map fun c =>
          strReplaceMany ["_reporte"] [""] c).map applyRenames,
    rows := t.rows }

/-- `get_common_columns` (`process_and_validate.py`):
`list(set.intersection(*[set(df.columns) for df in dfs]))`.  The Python
set has no inherent order; the model enumerates the intersection as a
deduplicated sublist of the first table's columns (the properties proved
below depend only on the underlying set). -/
def get_common_columns : List Table → List String
  | [] => []
  | d :: ds => d.cols.dedup.filter (fun c => ds.all fun t => decide (c ∈ t.cols))

/-- Pandas `df[cs]` column projection: for each requested name, the
cell of the row at that column's position.  Within the pipeline every
requested name is a column of the table (pandas raises `KeyError`
otherwise); the model totalizes the lookup with null. -/
def project (cs : List String) (t : Table) : Table :=
  { cols := cs,
    rows := t.rows.map fun r =>
      cs.map fun c =>
        match pyIndex c t.cols with
        | some i => r.getD i .null
        | none => .null }

/-- The concatenation step of `process_and_clean_data`:
`pd.concat([df[common_columns] for df in all_dfs], ignore_index=True)`
with `common_columns = get_common_columns(all_dfs)`. -/
def process_concat (dfs : List Table) : Table :=
  let cs := get_common_columns dfs
  { cols := cs, rows := ((dfs.map (project cs)).map Table.rows).flatten }

/-- The mismatch diagnostic printed by `validate_data`. -/
def mismatch_message (total final : Nat) : String :=
  s!"Rows were dropped during cleaning. Original: {total}, Final: {final}"

/-- `validate_data` (`process_and_validate.py`): compare the sum of the
per-file row counts with the unified table's row count, print a
diagnostic either way, and return the comparison.  The function is
total: it never raises, and it reads but never writes its arguments.
Returns (returned boolean, printed message). -/
def validate_data (all_dfs : List Table) (df_final : Table) : Bool × String :=
  let total := (all_dfs.map fun t => t.rows.length).sum
  let final := df_final.rows.length
  if total = final then (true, "No rows were dropped during cleaning")
  else (false, mismatch_message total final)

/-- Filename pattern of the data-dictionary reference artifact in
`read_headers`. -/
def dictFilePat : String := "diccionario-percances-viales-axa"

/-- `read_headers` (`process_and_validate.py`), abstracted over the
file system: `files` is the listing of the `data-dictionary` folder and
`content` gives the first spreadsheet column of a file.  The source
takes element `[0]` of the matching files (`IndexError` when none), then
`headers.index("Mes Reporte")` (`ValueError` when absent), then
`headers.insert(index + 1, "Día Numero")`; exceptions are modelled as
`Except.error`. -/
def read_headers (files : List String) (content : String → List String) :
    Except String (List String) :=
  match files.filter (fun f => dictFilePat.data.isPrefixOf f.data) with
  | [] => .error "IndexError: list index out of range"
  | f :: _ =>
    let headers := content f
    match pyIndex "Mes Reporte" headers with
    | none => .error "ValueError: 'Mes Reporte' is not in list"
    | some i => .ok (headers.take (i + 1) ++ "Día Numero" :: headers.drop (i + 1))

/-- `export_dataframe` (`cleaning_and_export.py`), abstracted over the
actual file writes: `write fmt` is the outcome of the corresponding
`df.write_*` call (`Except.error` = the write raised).  The whole
dispatch — including the `raise ValueError` branch for an unrecognized
format — sits inside the `try` block, and `except Exception as e`
catches every exception and prints it, so the function always returns
normally; its result here is the message it prints. -/
def export_dataframe (format : String) (write : String → Except String Unit) :
    String :=
  let body : Except String String :=
    if format = "csv" then
      (write "csv").map fun _ => "DataFrame successfully exported"
    else if format = "parquet" then
      (write "parquet").map fun _ => "DataFrame successfully exported"
    else if format = "json" then
      (write "json").map fun _ => "DataFrame successfully exported"
    else .error s!"Unsupported format: {format}"
  match body with
  | .ok m => m
  | .error e => s!"Error exporting DataFrame: {e}"

/-! ### Helper lemmas -/

theorem toNumericCell_null_iff (v : Val) :
    notna (toNumericCell v) = false
      ↔ (notna v = false ∨ ∃ s, v = .str s ∧ parseNumStr s = none) := by
  cases v with
  | null => simp [toNumericCell, notna]
  | num n => simp [toNumericCell, notna]
  | str s => cases hp : parseNumStr s <;> simp [toNumericCell, hp, notna]

theorem count_mask_eq (col : List Val) :
    (col.map fun v => (!notna (toNumericCell v)) && notna v).count true
      = ((col.zip (col.map toNumericCell)).filter
          fun p => notna p.1 && !notna p.2).length := by
  induction col with
  | nil => rfl
  | cons v vs ih =>
    simp only [List.map_cons, List.zip_cons_cons, List.filter_cons, List.count_cons]
    cases hv : notna v <;> cases hn : notna (toNumericCell v) <;>
      simp [hv, hn, ih]

theorem mem_get_common_columns {c : String} {d : Table} {ds : List Table} :
    c ∈ get_common_columns (d :: ds) ↔ ∀ t ∈ d :: ds, c ∈ t.cols := by
  simp [get_common_columns, List.mem_filter, List.mem_dedup, List.all_eq_true,
    List.forall_mem_cons]

theorem pyIndex_append_cons (x : String) (pre post : List String) (h : x ∉ pre) :
    pyIndex x (pre ++ x :: post) = some pre.length := by
  induction pre with
  | nil => simp [pyIndex]
  | cons y ys ih =>
    have hy : ¬(y = x) := fun hxy => h (hxy ▸ List.mem_cons_self y ys)
    have h' : x ∉ ys := fun hm => h (List.mem_cons_of_mem _ hm)
    simp [pyIndex, hy, ih h']

theorem pyIndex_eq_none (x : String) (l : List String) (h : x ∉ l) :
    pyIndex x l = none := by
  induction l with
  | nil => rfl
  | cons y ys ih =>
    have hy : ¬(y = x) := fun hxy => h (hxy ▸ List.mem_cons_self y ys)
    have h' : x ∉ ys := fun hm => h (List.mem_cons_of_mem _ hm)
    simp [pyIndex, hy, ih h']

/-! ### Claim theorems -/

/-- C1 (counterexample): on the input column
`["Bajo", "Alto daño total", "Medio", "Sin daño", "desconocido"]` the
damage-level translation does not produce `[2, 4, 3, 1, null]` as the
claim states. -/
theorem damage_levels_claim_cex :
    ¬ (process_damage_levels
          [some "Bajo", some "Alto daño total", some "Medio",
           some "Sin daño", some "desconocido"]
        = [some 2, some 4, some 3, some 1, none]) := by decide

/-- C1 (amended): the ordered substitution chain turns
`"Alto daño total"` into `"4 daño total"` — the `"1*"` collapse touches
only no-damage residue — so the integer cast yields null there, and the
resulting column is `[2, null, 3, 1, null]`. -/
theorem damage_levels_amended :
    process_damage_levels
        [some "Bajo", some "Alto daño total", some "Medio",
         some "Sin daño", some "desconocido"]
      = [some 2, none, some 3, some 1, none] := by decide

/-- C2 (counterexample): on the column `["12", "abc", "", "7"]` the
numeric coercion counts two values, not one: the empty string is
non-null in pandas and fails the numeric parse, so it is coerced to
null and counted along with `"abc"`. -/
theorem convert_numeric_claim_cex :
    ¬ ((convert_numeric_column
          [.str "12", .str "abc", .str "", .str "7"]).2 = 1)
  ∧ (convert_numeric_column [.str "12", .str "abc", .str "", .str "7"]).2 = 2
  ∧ (convert_numeric_column [.str "12", .str "abc", .str "", .str "7"]).1
      = [.num 12, .null, .null, .num 7]
  ∧ notna (.str "") = true := by decide

/-- C2 (amended): for every column, the reported coercion count equals
the number of positions whose value was non-null but is null after the
coercion, and a position is null after the coercion exactly when it was
null before or held a string that fails the numeric parse — the empty
string being one such non-null failing string. -/
theorem convert_numeric_spec (col : List Val) :
    ((convert_numeric_column col).2
        = ((col.zip (convert_numeric_column col).1).filter
            fun p => notna p.1 && !notna p.2).length)
  ∧ ∀ (i : Nat) (v w : Val), col[i]? = some v →
      (convert_numeric_column col).1[i]? = some w →
      (notna w = false ↔ (notna v = false ∨ ∃ s, v = .str s ∧ parseNumStr s = none)) := by
  constructor
  · simpa [convert_numeric_column] using count_mask_eq col
  · intro i v w hv hw
    have hmap : (convert_numeric_column col).1[i]? = Option.map toNumericCell col[i]? := by
      simp [convert_numeric_column, List.getElem?_map]
    rw [hmap, hv] at hw
    cases hw
    exact toNumericCell_null_iff v

/-- C2 witness: the theorem applied to the column `["12", "abc"]` at
index 1, where `"abc"` is non-null, fails the parse and is nulled. -/
theorem convert_numeric_spec_witness :
    ([Val.str "12", Val.str "abc"][1]? = some (Val.str "abc"))
  ∧ ((convert_numeric_column [Val.str "12", Val.str "abc"]).1[1]? = some Val.null)
  ∧ (notna Val.null = false
      ↔ (notna (Val.str "abc") = false
          ∨ ∃ s, Val.str "abc" = Val.str s ∧ parseNumStr s = none)) :=
  ⟨rfl, by decide,
    (convert_numeric_spec [Val.str "12", Val.str "abc"]).2 1 _ _ rfl (by decide)⟩

/-- C3: month translation lowercases, replaces Spanish month names by
the English name at the same index, replaces English month names by
their 1–12 numeric string, and casts with failures becoming null: on
`["enero", "diciembre", "ENERO", "xyz"]` it yields `[1, 12, 1, null]`,
and every one of the twelve Spanish months at index `i` maps to
`i + 1`. -/
theorem translate_months_spec :
    translate_months [some "enero", some "diciembre", some "ENERO", some "xyz"]
        = [some 1, some 12, some 1, none]
  ∧ ((months_spanish.zip (List.range 12)).all
        fun p => translate_mes_cell (some p.1) == some ((p.2 : Int) + 1)) = true := by
  refine ⟨by decide, by decide⟩

/-- C7: for an unrecognized format tag the `raise ValueError` sits
inside the `try` block and `except Exception` catches it, so
`export_dataframe` returns normally after printing the error — the
`ValueError` promised by its docstring never reaches the caller.  The
model's return value is the printed message; no error channel exists in
the function's type because every exception is caught. -/
theorem export_dataframe_unsupported_caught (write : String → Except String Unit) :
    export_dataframe "xml" write
      = "Error exporting DataFrame: Unsupported format: xml" := rfl

/-- C9: the column normalizer only reassigns column names; the rows —
every cell of every row, in order — are exactly those of the input
table. -/
theorem clean_column_names_frame (t : Table) :
    (clean_column_names t).rows = t.rows := rfl

/-- C4: the row-count validation returns `true` exactly when the sum of
the per-file row counts equals the unified table's row count, and on a
mismatch its only output is the diagnostic message — the function is
total (no exception path) and does not touch its argument tables. -/
theorem validate_data_spec (all_dfs : List Table) (df_final : Table) :
    ((validate_data all_dfs df_final).1 = true
        ↔ (all_dfs.map fun t => t.rows.length).sum = df_final.rows.length)
  ∧ ((validate_data all_dfs df_final).1 = false →
      (validate_data all_dfs df_final).2
        = mismatch_message ((all_dfs.map fun t => t.rows.length).sum)
            df_final.rows.length) := by
  unfold validate_data
  by_cases h : (all_dfs.map fun t => t.rows.length).sum = df_final.rows.length <;>
    simp [h]

/-- C4 witness: a one-row input table against an empty unified table —
the validation returns `false` and reports the 1-versus-0 mismatch. -/
theorem validate_data_spec_witness :
    ((validate_data [Table.mk ["a"] [[Val.num 1]]] (Table.mk ["a"] [])).1 = false)
  ∧ ((validate_data [Table.mk ["a"] [[Val.num 1]]] (Table.mk ["a"] [])).2
      = mismatch_message 1 0) :=
  ⟨by decide,
    (validate_data_spec [Table.mk ["a"] [[Val.num 1]]] (Table.mk ["a"] [])).2
      (by decide)⟩

/-- C8 (counterexample): the month-translation diagnostic selects the
`mes` column after the integer cast, so for the failing original
`"xyz"` it reports only the single null value — and it reports exactly
the same thing for the different failing original `"abc"`, so the
diagnostic cannot identify which source strings failed. -/
theorem invalid_months_cex :
    invalid_months [some "xyz"] = [none]
  ∧ invalid_months [some "abc"] = [none]
  ∧ invalid_months [some "xyz"] = invalid_months [some "abc"] := by decide

/-- C8 (amended): the diagnostic fires exactly when some value of the
`mes` column is null after the cast, and what it reports are the
distinct post-cast values of those rows — all of them null, never the
original pre-translation text. -/
theorem invalid_months_spec (col : List (Option String)) :
    (invalid_months col ≠ [] ↔ none ∈ translate_months col)
  ∧ ∀ v ∈ invalid_months col, v = none := by
  constructor
  · rw [Ne, invalid_months, List.dedup_eq_nil, List.filter_eq_nil_iff]
    push_neg
    constructor
    · rintro ⟨v, hv, hnone⟩
      have hvn : v = none := Option.isNone_iff_eq_none.mp (by simpa using hnone)
      exact hvn ▸ hv
    · intro h
      exact ⟨none, h, by simp⟩
  · intro v hv
    rw [invalid_months, List.mem_dedup, List.mem_filter] at hv
    exact Option.isNone_iff_eq_none.mp hv.2

/-- C8 witness: the theorem applied to the single-cell column
`["xyz"]`, whose translation is null, so the diagnostic fires. -/
theorem invalid_months_spec_witness :
    invalid_months [some "xyz"] ≠ []
  ∧ ((invalid_months [some "xyz"]).getD 0 none = none) :=
  ⟨(invalid_months_spec [some "xyz"]).1.mpr (by decide),
    (invalid_months_spec [some "xyz"]).2 none (by decide)⟩

/-- C10: projecting every per-file table to the common column set keeps
every row, so the unified table built by `process_and_clean_data` has
exactly the summed row count and `validate_data` always returns `true`
on the pipeline's own output — the mismatch diagnostic can never fire
on it. -/
theorem validate_pipeline_output (d : Table) (ds : List Table) :
    (validate_data (d :: ds) (process_concat (d :: ds))).1 = true := by
  have hlen : (process_concat (d :: ds)).rows.length
      = ((d :: ds).map fun t => t.rows.length).sum := by
    simp [process_concat, List.length_flatten, List.map_map, Function.comp_def,
      project]
  simp [validate_data, hlen]

/-- C5: reordering the per-file tables leaves the schema-intersection
set unchanged, and concatenating the projected tables in the permuted
order yields a permutation — the same multiset — of the concatenated
projected rows (row order within each table is preserved by `project`;
table order moves whole blocks only). -/
theorem schema_intersection_perm (dfs dfs' : List Table) (cs : List String)
    (hp : dfs.Perm dfs')
    (hcs : cs.toFinset = (get_common_columns dfs).toFinset) :
    (get_common_columns dfs).toFinset = (get_common_columns dfs').toFinset
  ∧ (((dfs.map (project cs)).map Table.rows).flatten).Perm
      (((dfs'.map (project cs)).map Table.rows).flatten) := by
  constructor
  · rcases dfs with _ | ⟨d, ds⟩
    · have h0 : dfs' = [] := hp.symm.eq_nil
      subst h0; rfl
    · rcases dfs' with _ | ⟨d', ds'⟩
      · exact absurd hp.eq_nil (by simp)
      · ext c
        simp only [List.mem_toFinset, mem_get_common_columns]
        exact ⟨fun h t ht => h t (hp.mem_iff.mpr ht),
          fun h t ht => h t (hp.mem_iff.mp ht)⟩
  · exact ((hp.map (project cs)).map Table.rows).flatten

/-- C5 witness: two one-row tables over the columns `{a, b}` listed in
opposite orders, swapped: the intersection set agrees and the
concatenated projected rows are a permutation of each other. -/
theorem schema_intersection_perm_witness :
    (get_common_columns [Table.mk ["a", "b"] [[Val.num 1, Val.num 2]],
        Table.mk ["b", "a"] [[Val.num 3, Val.num 4]]]).toFinset
      = (get_common_columns [Table.mk ["b", "a"] [[Val.num 3, Val.num 4]],
          Table.mk ["a", "b"] [[Val.num 1, Val.num 2]]]).toFinset
  ∧ ((([Table.mk ["a", "b"] [[Val.num 1, Val.num 2]],
        Table.mk ["b", "a"] [[Val.num 3, Val.num 4]]].map
          (project ["a", "b"])).map Table.rows).flatten).Perm
      ((([Table.mk ["b", "a"] [[Val.num 3, Val.num 4]],
          Table.mk ["a", "b"] [[Val.num 1, Val.num 2]]].map
            (project ["a", "b"])).map Table.rows).flatten) :=
  schema_intersection_perm _ _ _
    (List.Perm.swap (Table.mk ["b", "a"] [[Val.num 3, Val.num 4]])
      (Table.mk ["a", "b"] [[Val.num 1, Val.num 2]]) [])
    (by decide)

/-- Reduction of `read_headers` once the dictionary-file listing is
known to have a first match. -/
theorem read_headers_cons (files : List String) (content : String → List String)
    (f : String) (fs : List String)
    (hfil : files.filter (fun g => dictFilePat.data.isPrefixOf g.data) = f :: fs) :
    read_headers files content
      = (match pyIndex "Mes Reporte" (content f) with
         | none => .error "ValueError: 'Mes Reporte' is not in list"
         | some i =>
            .ok ((content f).take (i + 1) ++ "Día Numero" :: (content f).drop (i + 1))) := by
  unfold read_headers
  rw [hfil]

/-- C6: whenever the dictionary folder has a file matching the fixed
name pattern and that file's first column contains the month field, the
header resolver returns that column with `"Día Numero"` inserted
immediately after the first `"Mes Reporte"`; it returns an error — not
a header list — when no file matches the pattern or when the month
field is absent. -/
theorem read_headers_spec (files : List String) (content : String → List String) :
    (∀ f fs pre post,
        files.filter (fun g => dictFilePat.data.isPrefixOf g.data) = f :: fs →
        content f = pre ++ "Mes Reporte" :: post →
        "Mes Reporte" ∉ pre →
        read_headers files content
          = .ok (pre ++ "Mes Reporte" :: "Día Numero" :: post))
  ∧ (files.filter (fun g => dictFilePat.data.isPrefixOf g.data) = [] →
      ∃ e, read_headers files content = .error e)
  ∧ ∀ f fs,
      files.filter (fun g => dictFilePat.data.isPrefixOf g.data) = f :: fs →
      "Mes Reporte" ∉ content f →
      ∃ e, read_headers files content = .error e := by
  refine ⟨?_, ?_, ?_⟩
  · intro f fs pre post hfil hcont hpre
    have ht : List.take (pre.length + 1) (pre ++ "Mes Reporte" :: post)
        = pre ++ ["Mes Reporte"] := by
      simpa using @List.take_append _ pre ("Mes Reporte" :: post) 1
    have hd : List.drop (pre.length + 1) (pre ++ "Mes Reporte" :: post) = post := by
      rw [@List.drop_append _ pre ("Mes Reporte" :: post) 1, List.drop_one,
        List.tail_cons]
    rw [read_headers_cons files content f fs hfil, hcont,
      pyIndex_append_cons _ _ _ hpre]
    simp [ht, hd]
  · intro hfil
    unfold read_headers
    rw [hfil]
    exact ⟨_, rfl⟩
  · intro f fs hfil hmem
    rw [read_headers_cons files content f fs hfil, pyIndex_eq_none _ _ hmem]
    exact ⟨_, rfl⟩

/-- C6 witness: a dictionary folder holding one matching file whose
first column is `["Siniestro", "Mes Reporte", "Hora Reporte"]` — the
resolver succeeds with `"Día Numero"` inserted right after
`"Mes Reporte"`. -/
theorem read_headers_spec_witness :
    read_headers ["diccionario-percances-viales-axa-dic.xlsx"]
        (fun _ => ["Siniestro", "Mes Reporte", "Hora Reporte"])
      = .ok ["Siniestro", "Mes Reporte", "Día Numero", "Hora Reporte"] :=
  (read_headers_spec ["diccionario-percances-viales-axa-dic.xlsx"]
      (fun _ => ["Siniestro", "Mes Reporte", "Hora Reporte"])).1
    "diccionario-percances-viales-axa-dic.xlsx" [] ["Siniestro"] ["Hora Reporte"]
    (by decide) rfl (by decide)

end AccidentPipeline
